import Mathlib

/-!
A shallow embedding of `ChatAssistants.py`: the chat data model
(`ChatMessage`, `ChatMessages`, `SystemChatMessage`, `ChatExchange`,
`Conversation`), its JSON serialization, and the conversation-run state
machine (`ConversationRun`, `Conversation.run`, `Conversation._handle_submission`).

Modelling conventions:
- Python exceptions become `Except PyError`; an operation that raises returns
  `.error e` and (by convention of the embedding) leaves the receiver
  unchanged when the raise happens before any field assignment, exactly as in
  the source, where every raise in these methods occurs before the assignment
  it guards.
- `json.dumps` / `json.loads` are modelled at the level of the parsed JSON
  tree (`Json`); a serialize produces the tree `dumps` would render and a
  deserialize consumes the tree `loads` would produce. Failure of `loads` on
  malformed text lives below this abstraction.
- `uuid.uuid4()` is modelled by an externally supplied fresh identifier
  (a `String` argument, or a `Nat → String` source when a loop creates many).
- Wall-clock times (`time()`, `sleep`) are not represented: no verified claim
  mentions them, and the driver treats them as opaque bookkeeping.
-/

namespace ChatAssistants

/-- The Python exception classes that the code can raise, by class. `excessTokenError`
models `ExcessTokenError(Exception)` from the source; the others are builtins. -/
inductive PyError where
  | valueError : String → PyError
  | typeError : String → PyError
  | attributeError : String → PyError
  | keyError : String → PyError
  | excessTokenError : String → PyError
  | otherError : String → PyError
deriving DecidableEq, Repr

/-- `except ExcessTokenError` in `_handle_submission` catches exactly this class. -/
def PyError.isExcessToken : PyError → Bool
  | .excessTokenError _ => true
  | _ => false

/-- Parsed JSON values, the abstraction over `json.dumps`/`json.loads` strings.
Only the shapes the program produces or consumes are represented. -/
inductive Json where
  | str : String → Json
  | obj : List (String × Json) → Json
  | arr : List Json → Json

/-- Keyword lookup in a Python dict built from JSON (`kwargs["k"]` / `d.get(k)`). -/
def kwargsLookup (kwargs : List (String × Json)) (k : String) : Option Json :=
  (kwargs.find? (fun kv => kv.fst == k)).map (fun kv => kv.snd)

/-- `ChatMessage`: `{id, role, content}` with the role validated by the
`role` property setter. -/
structure ChatMessage where
  id : String
  role : String
  content : String
deriving DecidableEq, Repr

/-- `ChatMessage.VALID_ROLES = ["user", "assistant", "system"]`. -/
def VALID_ROLES : List String := ["user", "assistant", "system"]

/-- The `role` property setter of `ChatMessage`: raises `ValueError` when the
new role is not in `VALID_ROLES`, leaving the message unchanged; otherwise
stores the new role. -/
def ChatMessage.set_role (m : ChatMessage) (new_role : String) : Except PyError ChatMessage :=
  if new_role ∈ VALID_ROLES then .ok { m with role := new_role }
  else .error (.valueError "Invalid role")

/-- `ChatMessage.__init__(role, content)`: assigns a fresh id, then runs the
`role` setter (so construction fails on an invalid role), then stores content. -/
def ChatMessage.new (fresh_id role content : String) : Except PyError ChatMessage :=
  if role ∈ VALID_ROLES then .ok { id := fresh_id, role := role, content := content }
  else .error (.valueError "Invalid role")

/-- `ChatMessage.update(role, content)`: runs the role setter, then assigns the
content; an invalid role raises before the content is touched. -/
def ChatMessage.update (m : ChatMessage) (role content : String) : Except PyError ChatMessage :=
  match m.set_role role with
  | .error e => .error e
  | .ok m1 => .ok { m1 with content := content }

/-- `ChatMessage.to_dict(include_id)`: the canonical record of a message. -/
def ChatMessage.to_dict (m : ChatMessage) (include_id : Bool) : Json :=
  if include_id then
    .obj [("id", .str m.id), ("role", .str m.role), ("content", .str m.content)]
  else
    .obj [("role", .str m.role), ("content", .str m.content)]

/-- `ChatMessage(**msg)` applied to a parsed JSON record: Python raises
`TypeError` at the call when a keyword is not a parameter of
`__init__(self, role, content)` or a required parameter is missing; otherwise
the constructor body runs (role validated by the setter). A non-string role is
never in `VALID_ROLES`, so it raises `ValueError` exactly as in Python; the
program only ever feeds string contents through this path. -/
def ChatMessage.from_kwargs (fresh_id : String) (kwargs : List (String × Json)) :
    Except PyError ChatMessage :=
  if kwargs.any (fun kv => kv.fst != "role" && kv.fst != "content") then
    .error (.typeError "unexpected keyword argument")
  else
    match kwargsLookup kwargs "role", kwargsLookup kwargs "content" with
    | some (.str r), some (.str c) => ChatMessage.new fresh_id r c
    | some _, some _ => .error (.valueError "Invalid role")
    | _, _ => .error (.typeError "missing required argument")

/-- `ChatMessages`: an ordered list of `ChatMessage` objects. -/
structure ChatMessages where
  _messages : List ChatMessage
deriving DecidableEq, Repr

/-- `ChatMessages.to_dict(include_id)`: list of message records. -/
def ChatMessages.to_dict (cm : ChatMessages) (include_id : Bool) : Json :=
  .arr (cm._messages.map (fun m => m.to_dict include_id))

/-- `ChatMessages.serialize()`: `json.dumps([message.to_dict() for ...])` with
the default `include_id = True`. -/
def ChatMessages.serialize (cm : ChatMessages) : Json :=
  .arr (cm._messages.map (fun m => m.to_dict true))

/-- Builds `[ChatMessage(**msg) for msg in messages]`, threading the fresh-id
source by position; the first raise aborts the comprehension. -/
def buildMessages (fresh : Nat → String) (i : Nat) :
    List Json → Except PyError (List ChatMessage)
  | [] => .ok []
  | item :: rest =>
    match item with
    | .obj kwargs =>
      match ChatMessage.from_kwargs (fresh i) kwargs with
      | .error e => .error e
      | .ok m =>
        match buildMessages fresh (i + 1) rest with
        | .error e => .error e
        | .ok ms => .ok (m :: ms)
    | _ => .error (.typeError "argument after double-star must be a mapping")

/-- `ChatMessages.deserialize(json_string)`: parses the string (the tree is the
input here) and replaces `_messages` with `[ChatMessage(**msg) for msg in messages]`.
Any raise from a `ChatMessage(...)` call propagates and `_messages` is untouched. -/
def ChatMessages.deserialize (fresh : Nat → String) (cm : ChatMessages) (j : Json) :
    Except PyError ChatMessages :=
  match j with
  | .arr items =>
    match buildMessages fresh 0 items with
    | .error e => .error e
    | .ok ms => .ok { cm with _messages := ms }
  | _ => .error (.typeError "not iterable over mappings")

/-- `SystemChatMessage.__init__(content)`: calls
`ChatMessage.__init__(role="system", content=content)`, which dispatches to the
overriding setter; "system" passes both gates, so construction always
succeeds with the role pinned to "system". -/
def SystemChatMessage.new (fresh_id content : String) : ChatMessage :=
  { id := fresh_id, role := "system", content := content }

/-- The overriding `role` setter of `SystemChatMessage`: raises `ValueError`
for any role other than "system", then defers to the `ChatMessage` setter. -/
def SystemChatMessage.set_role (m : ChatMessage) (new_role : String) :
    Except PyError ChatMessage :=
  if new_role ≠ "system" then .error (.valueError "Role of SystemChatMessage must be system")
  else ChatMessage.set_role m new_role

/-- `ChatMessage.update` called on a `SystemChatMessage` instance: the
`self.role = role` assignment dispatches dynamically to the overriding setter,
so only the role "system" passes; then the content is assigned. -/
def SystemChatMessage.update (m : ChatMessage) (role content : String) :
    Except PyError ChatMessage :=
  match SystemChatMessage.set_role m role with
  | .error e => .error e
  | .ok m1 => .ok { m1 with content := content }

/-- `SystemChatMessage.from_chatmessage`: narrowing conversion, fails unless
the source role is "system"; builds a fresh message with the same content. -/
def SystemChatMessage.from_chatmessage (fresh_id : String) (m : ChatMessage) :
    Except PyError ChatMessage :=
  if m.role ≠ "system" then
    .error (.valueError "ChatMessage should have a role of system")
  else .ok (SystemChatMessage.new fresh_id m.content)

/-- `SystemChatMessage(**convo["system_message"])`: the constructor signature is
`__init__(self, content)`, so any other keyword (`id`, `role`, ...) raises
`TypeError` at the call; a missing `content` also raises `TypeError`. -/
def SystemChatMessage.from_kwargs (fresh_id : String) (kwargs : List (String × Json)) :
    Except PyError ChatMessage :=
  if kwargs.any (fun kv => kv.fst != "content") then
    .error (.typeError "unexpected keyword argument")
  else
    match kwargsLookup kwargs "content" with
    | some (.str c) => .ok (SystemChatMessage.new fresh_id c)
    | some _ => .error (.typeError "non-string content outside this model")
    | none => .error (.typeError "missing required argument")

/-- `ChatExchange`: a validated prompt/response pair. -/
structure ChatExchange where
  prompt : ChatMessage
  response : ChatMessage
deriving DecidableEq, Repr

/-- The `prompt` property setter: raises unless the new prompt has role "user". -/
def ChatExchange.set_prompt (e : ChatExchange) (p : ChatMessage) : Except PyError ChatExchange :=
  if p.role ≠ "user" then .error (.valueError "Prompt must be a user message.")
  else .ok { e with prompt := p }

/-- The `response` property setter: raises unless the new response has role "assistant". -/
def ChatExchange.set_response (e : ChatExchange) (r : ChatMessage) : Except PyError ChatExchange :=
  if r.role ≠ "assistant" then .error (.valueError "Response must be an assistant message.")
  else .ok { e with response := r }

/-- `ChatExchange.__init__(prompt, response)`: runs the prompt setter, then the
response setter; the first failing validation raises. -/
def ChatExchange.new (p r : ChatMessage) : Except PyError ChatExchange :=
  if p.role ≠ "user" then .error (.valueError "Prompt must be a user message.")
  else if r.role ≠ "assistant" then .error (.valueError "Response must be an assistant message.")
  else .ok { prompt := p, response := r }

/-- `ChatExchange(prompt=..., response=...)` where either argument may be the
Python `None` (an attribute access on `None` raises `AttributeError` inside the
setter): used by the success path of `_handle_submission`, whose arguments are
`self.next_prompt` and `ro.response`, both optional attributes. -/
def ChatExchange.new_opt (p r : Option ChatMessage) : Except PyError ChatExchange :=
  match p with
  | none => .error (.attributeError "NoneType object has no attribute role")
  | some p1 =>
    if p1.role ≠ "user" then .error (.valueError "Prompt must be a user message.")
    else
      match r with
      | none => .error (.attributeError "NoneType object has no attribute role")
      | some r1 =>
        if r1.role ≠ "assistant" then .error (.valueError "Response must be an assistant message.")
        else .ok { prompt := p1, response := r1 }

/-- `ChatExchange.to_dict(include_id)`. -/
def ChatExchange.to_dict (e : ChatExchange) (include_id : Bool) : Json :=
  .obj [("prompt", e.prompt.to_dict include_id), ("response", e.response.to_dict include_id)]

/-- `ChatExchange(**exchange)` applied to a parsed JSON record: the keyword
check passes for keys `prompt`/`response`, but the values coming from
`json.loads` are plain dicts, not `ChatMessage` objects, so the prompt setter
raises `AttributeError` on `new_prompt.role`. -/
def ChatExchange.from_kwargs (kwargs : List (String × Json)) : Except PyError ChatExchange :=
  if kwargs.any (fun kv => kv.fst != "prompt" && kv.fst != "response") then
    .error (.typeError "unexpected keyword argument")
  else
    match kwargsLookup kwargs "prompt", kwargsLookup kwargs "response" with
    | some _, some _ => .error (.attributeError "dict object has no attribute role")
    | _, _ => .error (.typeError "missing required argument")

/-- `Conversation`: a system message, an ordered exchange list, and an optional
pending prompt. The `chat_exchanges` setter of the source only checks that
every element is a `ChatExchange` instance, which the Lean type enforces. -/
structure Conversation where
  system_message : ChatMessage
  chat_exchanges : List ChatExchange
  next_prompt : Option ChatMessage
deriving DecidableEq, Repr

/-- The `next_prompt` property setter: `None` is accepted; a message must have
role "user". -/
def Conversation.set_next_prompt (c : Conversation) (p : Option ChatMessage) :
    Except PyError Conversation :=
  match p with
  | none => .ok { c with next_prompt := none }
  | some m =>
    if m.role ≠ "user" then .error (.valueError "next_prompt must be a user message.")
    else .ok { c with next_prompt := some m }

/-- `Conversation.append(chat_exchange)`: the isinstance check is enforced by
the Lean type; appends to the exchange list. -/
def Conversation.append (c : Conversation) (e : ChatExchange) : Conversation :=
  { c with chat_exchanges := c.chat_exchanges ++ [e] }

/-- `Conversation.to_dict(include_id)`. -/
def Conversation.to_dict (c : Conversation) (include_id : Bool) : Json :=
  .obj [("system_message", c.system_message.to_dict include_id),
        ("chat_exchanges", .arr (c.chat_exchanges.map (fun e => e.to_dict include_id)))]

/-- `Conversation.serialize()`: `json.dumps(self.to_dict())` with the default
`include_id = True`. -/
def Conversation.serialize (c : Conversation) : Json :=
  c.to_dict true

/-- Builds `[ChatExchange(**exchange) for exchange in convo["chat_exchanges"]]`. -/
def buildExchanges : List Json → Except PyError (List ChatExchange)
  | [] => .ok []
  | item :: rest =>
    match item with
    | .obj kwargs =>
      match ChatExchange.from_kwargs kwargs with
      | .error e => .error e
      | .ok ex =>
        match buildExchanges rest with
        | .error e => .error e
        | .ok exs => .ok (ex :: exs)
    | _ => .error (.typeError "argument after double-star must be a mapping")

/-- `Conversation.deserialize(json_string)`: reassigns `system_message` from
`SystemChatMessage(**convo["system_message"])` and then `chat_exchanges` from
`[ChatExchange(**exchange) for ...]`; `next_prompt` is untouched. A raise from
the `SystemChatMessage` call happens before any assignment. -/
def Conversation.deserialize (fresh_id : String) (c : Conversation) (j : Json) :
    Except PyError Conversation :=
  match j with
  | .obj kvs =>
    match kwargsLookup kvs "system_message" with
    | none => .error (.keyError "system_message")
    | some (.obj skw) =>
      match SystemChatMessage.from_kwargs fresh_id skw with
      | .error e => .error e
      | .ok sm =>
        match kwargsLookup kvs "chat_exchanges" with
        | none => .error (.keyError "chat_exchanges")
        | some (.arr exs) =>
          match buildExchanges exs with
          | .error e => .error e
          | .ok exlist => .ok { c with system_message := sm, chat_exchanges := exlist }
        | some _ => .error (.typeError "not iterable over mappings")
    | some _ => .error (.typeError "argument after double-star must be a mapping")
  | _ => .error (.typeError "not subscriptable")

/-- `RunStatus`, the enum of run states. -/
inductive RunStatus where
  | UNSUBMITTED
  | PENDING
  | SUBMITTED
  | QUEUED
  | COMPLETED
  | ERROR
  | FAILED
deriving DecidableEq, Repr

/-- One invocation of `adapter.llm_callback`: it either returns a raw response
(`none` modelling a Python `None` return) or raises an exception. -/
inductive CbOutcome where
  | success : Option Json → CbOutcome
  | raise : PyError → CbOutcome

/-- The adapter capabilities the driver consumes. `llm_callback` takes the
1-based attempt number — a Python adapter object may behave differently on
each call (a closure over a counter), which the driver observes only through
the order of its invocations — and the conversation passed as `self` by
`_handle_submission`. `from_conversation` is modelled total: an adapter whose
`from_conversation` raises aborts `run` before the retry loop and is not
needed by any verified claim. `to_chatmessage` may raise (`Except`). -/
structure Adapter where
  from_conversation : Conversation → Json
  to_chatmessage : Json → Except PyError ChatMessage
  llm_callback : Nat → Conversation → CbOutcome

/-- `ConversationRun.__init__`: the fields the driver reads or writes
(identifier and wall-clock fields are outside the model). -/
structure ConversationRun where
  attempts : Nat
  max_attempts : Nat
  status : RunStatus
  error_list : List PyError
  submission_list : Option Json
  raw_response : Option Json
  response : Option ChatMessage
  convo_snapshot : Option Conversation

/-- A fresh `ConversationRun(max_attempts=...)`. -/
def ConversationRun.new (max_attempts : Nat) : ConversationRun :=
  { attempts := 0, max_attempts := max_attempts, status := RunStatus.UNSUBMITTED,
    error_list := [], submission_list := none, raw_response := none,
    response := none, convo_snapshot := none }

/-- `ConversationRun.adapt_response()` in the driver flow, where the adapter is
set: if `raw_response` is `None` it logs and returns with no change; otherwise
`self.response = self.adapter.to_chatmessage(self.raw_response)`, re-raising
what the adapter raises (the assignment does not happen on a raise). -/
def ConversationRun.adapt_response (ad : Adapter) (ro : ConversationRun) :
    Except PyError ConversationRun :=
  match ro.raw_response with
  | none => .ok ro
  | some raw =>
    match ad.to_chatmessage raw with
    | .error e => .error e
    | .ok m => .ok { ro with response := some m }

/-- The observable outcome of `_handle_submission`: the final state of the
shared run object, the final conversation, the exception propagating out of
the method (if any), and whether the method returned `ro` (as opposed to the
implicit `None` when the `while` guard is initially false). -/
structure HandleResult where
  ro : ConversationRun
  conv : Conversation
  raised : Option PyError
  returned_run : Bool

/-- `Conversation._handle_submission(ro)`: the retry loop. Per iteration while
`ro.attempts < ro.max_attempts`: increment `attempts`, set status `SUBMITTED`,
invoke the callback; on `ExcessTokenError` set `FAILED`, record the error and
re-raise it (the re-wrap `raise ExcessTokenError(token_e)` preserves class and
message); on any other exception set `ERROR`, record it, and either set
`FAILED` and return `ro` when attempts are exhausted or sleep and retry; on
success snapshot the conversation, adapt the response, build
`ChatExchange(self.next_prompt, ro.response)`, append it, set `COMPLETED`, and
return `ro`. A raise from `adapt_response` or from the `ChatExchange`
constructor propagates with the conversation unchanged. -/
def Conversation.handle_submission (c : Conversation) (ad : Adapter)
    (ro : ConversationRun) : HandleResult :=
  if _h : ro.attempts < ro.max_attempts then
    let ro1 : ConversationRun :=
      { ro with attempts := ro.attempts + 1, status := RunStatus.SUBMITTED }
    match ad.llm_callback ro1.attempts c with
    | CbOutcome.raise e =>
      if e.isExcessToken then
        { ro := { ro1 with status := RunStatus.FAILED, error_list := ro1.error_list ++ [e] },
          conv := c, raised := some e, returned_run := false }
      else
        let ro2 : ConversationRun :=
          { ro1 with status := RunStatus.ERROR, error_list := ro1.error_list ++ [e] }
        if ro2.attempts ≥ ro2.max_attempts then
          { ro := { ro2 with status := RunStatus.FAILED },
            conv := c, raised := none, returned_run := true }
        else
          Conversation.handle_submission c ad ro2
    | CbOutcome.success raw =>
      let ro2 : ConversationRun :=
        { ro1 with raw_response := raw, convo_snapshot := some c }
      match ro2.adapt_response ad with
      | .error e => { ro := ro2, conv := c, raised := some e, returned_run := false }
      | .ok ro3 =>
        match ChatExchange.new_opt c.next_prompt ro3.response with
        | .error e => { ro := ro3, conv := c, raised := some e, returned_run := false }
        | .ok ex =>
          { ro := { ro3 with status := RunStatus.COMPLETED },
            conv := { c with chat_exchanges := c.chat_exchanges ++ [ex] },
            raised := none, returned_run := true }
  else
    { ro := ro, conv := c, raised := none, returned_run := false }
termination_by ro.max_attempts - ro.attempts
decreasing_by simp_all; omega

/-- The observable outcome of `Conversation.run`: either the method returns
the run object, or it raises before the run object exists (the `next_prompt`
precondition), or it raises after creating it (adapter attribute error,
token-limit error, or a raise from the success path). The conversation in the
result is its state when control returns to the caller. -/
inductive RunResult where
  | returned : ConversationRun → Conversation → RunResult
  | raised_no_run : PyError → Conversation → RunResult
  | raised : PyError → ConversationRun → Conversation → RunResult

/-- `Conversation.run(max_attempts, timeout, adapter, ...)`: raises
`ValueError` at once when `next_prompt` is `None` (no run object exists yet);
otherwise builds the run object, evaluates
`_run_object.adapter.from_conversation(self)` — an `AttributeError` when the
adapter argument was left as `None` —, sets status `PENDING`, runs
`_handle_submission`, and returns the run object (an exception from the
handler propagates instead). -/
def Conversation.run (c : Conversation) (max_attempts : Nat) (adapter : Option Adapter) :
    RunResult :=
  match c.next_prompt with
  | none =>
    RunResult.raised_no_run
      (.valueError "next_prompt must be set before running the Conversation.") c
  | some _ =>
    let ro := ConversationRun.new max_attempts
    match adapter with
    | none =>
      RunResult.raised
        (.attributeError "NoneType object has no attribute from_conversation") ro c
    | some ad =>
      let ro1 : ConversationRun :=
        { ro with submission_list := some (ad.from_conversation c),
                  status := RunStatus.PENDING }
      let hr := c.handle_submission ad ro1
      match hr.raised with
      | some e => RunResult.raised e hr.ro hr.conv
      | none => RunResult.returned hr.ro hr.conv

/-! Concrete fixtures mirroring the objects built in `test_ChatAssistants.py`,
used to instantiate the verified properties. -/

/-- A user message, as built by `ChatMessage("user", ...)`. -/
def userMsg : ChatMessage :=
  { id := "m1", role := "user", content := "Hello, I am the user message." }

/-- An assistant message, as built by `ChatMessage("assistant", ...)`. -/
def asstMsg : ChatMessage :=
  { id := "m2", role := "assistant", content := "This is a mock assistant response." }

/-- A system message, as built by `SystemChatMessage(...)`. -/
def sysMsg : ChatMessage :=
  SystemChatMessage.new "m0" "Hello, I am the system message."

/-- A conversation with a pending prompt, as in `test_conversation_run`. -/
def testConv : Conversation :=
  { system_message := sysMsg, chat_exchanges := [], next_prompt := some userMsg }

/-- A conversation whose `next_prompt` was never set. -/
def convNoPrompt : Conversation :=
  { system_message := sysMsg, chat_exchanges := [], next_prompt := none }

/-- A mock adapter whose callback succeeds on every invocation (the shape of
`mock_adapter` in the test file). -/
def adapterOk : Adapter :=
  { from_conversation := fun c => c.to_dict false,
    to_chatmessage := fun _ => .ok asstMsg,
    llm_callback := fun _ _ => .success (some (.str "ok")) }

/-- A mock adapter whose callback raises a transient error on the first two
invocations and succeeds on the third. -/
def adapterFlaky : Adapter :=
  { from_conversation := fun c => c.to_dict false,
    to_chatmessage := fun _ => .ok asstMsg,
    llm_callback := fun n _ =>
      if n ≤ 2 then .raise (.otherError "boom") else .success (some (.str "ok")) }

/-- A mock adapter whose callback raises a transient error on every invocation. -/
def adapterDown : Adapter :=
  { from_conversation := fun c => c.to_dict false,
    to_chatmessage := fun _ => .ok asstMsg,
    llm_callback := fun _ _ => .raise (.otherError "boom") }

/-- A mock adapter whose callback raises `ExcessTokenError` on every invocation. -/
def adapterToken : Adapter :=
  { from_conversation := fun c => c.to_dict false,
    to_chatmessage := fun _ => .ok asstMsg,
    llm_callback := fun _ _ => .raise (.excessTokenError "token limit exceeded") }

/-- Helper: the retry loop of `_handle_submission` never writes `next_prompt`;
whatever branch it exits through, the conversation it hands back has the
pending prompt of the conversation it was given. Induction is on a bound for
the remaining attempt budget. -/
theorem handle_submission_preserves_next_prompt (ad : Adapter) (c : Conversation) :
    ∀ (n : Nat) (ro : ConversationRun), ro.max_attempts - ro.attempts ≤ n →
      (c.handle_submission ad ro).conv.next_prompt = c.next_prompt := by
  intro n
  induction n with
  | zero =>
    intro ro hle
    rw [Conversation.handle_submission]
    have hge : ¬ ro.attempts < ro.max_attempts := by omega
    simp [hge]
  | succ n ih =>
    intro ro hle
    rw [Conversation.handle_submission]
    split
    · dsimp only
      split
      · split
        · simp
        · split
          · simp
          · apply ih
            simp
            omega
      · split
        · simp
        · split
          · simp
          · simp
    · simp

/-- C1: the code cannot round-trip its own serialization. `serialize` writes
records that include the `id` field, but `ChatMessages.deserialize` rebuilds
them with `ChatMessage(**msg)` — whose `__init__` accepts only `(role,
content)` — and `Conversation.deserialize` rebuilds the system message with
`SystemChatMessage(**record)` — whose `__init__` accepts only `(content)` — so
both raise `TypeError` on the extra keywords instead of producing an equal
value. Evaluated here at a one-message collection and at an exchange-free
conversation. -/
theorem serialize_roundtrip_raises :
    (ChatMessages.deserialize (fun n => toString n)
        { _messages := [{ id := "id0", role := "user", content := "hi" }] }
        (ChatMessages.serialize
          { _messages := [{ id := "id0", role := "user", content := "hi" }] })
      = .error (.typeError "unexpected keyword argument")) ∧
    (Conversation.deserialize "f0"
        { system_message := SystemChatMessage.new "sid" "sys",
          chat_exchanges := [], next_prompt := none }
        (Conversation.serialize
          { system_message := SystemChatMessage.new "sid" "sys",
            chat_exchanges := [], next_prompt := none })
      = .error (.typeError "unexpected keyword argument")) := by
  constructor <;> rfl

/-- C2: with `next_prompt` pending and an adapter whose callback fails
non-fatally on attempts 1 and 2 and succeeds on attempt 3,
`run(max_attempts=3)` returns the run object with `attempts = 3`, status
`COMPLETED`, both errors recorded in order, and the conversation extended by
exactly one exchange whose prompt is the original pending prompt. -/
theorem run_retry_twice_then_success (c : Conversation) (p : ChatMessage) (ad : Adapter)
    (hp : c.next_prompt = some p) (hrole : p.role = "user")
    (e1 e2 : PyError)
    (h1 : ad.llm_callback 1 c = .raise e1) (hf1 : e1.isExcessToken = false)
    (h2 : ad.llm_callback 2 c = .raise e2) (hf2 : e2.isExcessToken = false)
    (raw : Json) (h3 : ad.llm_callback 3 c = .success (some raw))
    (resp : ChatMessage) (hresp : ad.to_chatmessage raw = .ok resp)
    (hrr : resp.role = "assistant") :
    ∃ ro ex, c.run 3 (some ad) = RunResult.returned ro (c.append ex) ∧
      ro.attempts = 3 ∧ ro.status = RunStatus.COMPLETED ∧
      ro.error_list = [e1, e2] ∧ ex.prompt = p := by
  refine ⟨{ attempts := 3, max_attempts := 3, status := RunStatus.COMPLETED,
            error_list := [e1, e2],
            submission_list := some (ad.from_conversation c),
            raw_response := some raw, response := some resp, convo_snapshot := some c },
          { prompt := p, response := resp }, ?_, rfl, rfl, rfl, rfl⟩
  simp only [Conversation.run, hp, ConversationRun.new, Conversation.append]
  rw [Conversation.handle_submission]
  simp only [h1, hf1]
  norm_num
  rw [Conversation.handle_submission]
  simp only [h2, hf2]
  norm_num
  rw [Conversation.handle_submission]
  simp only [h3]
  norm_num [ConversationRun.adapt_response, hresp, ChatExchange.new_opt, hrole, hrr]
  simp [hp, hrole]

/-- C2 witness: the property instantiated at the concrete flaky adapter. -/
theorem run_retry_twice_then_success_witness :
    ∃ ro ex, testConv.run 3 (some adapterFlaky) = RunResult.returned ro (testConv.append ex) ∧
      ro.attempts = 3 ∧ ro.status = RunStatus.COMPLETED ∧
      ro.error_list = [.otherError "boom", .otherError "boom"] ∧ ex.prompt = userMsg :=
  run_retry_twice_then_success testConv userMsg adapterFlaky rfl rfl
    (.otherError "boom") (.otherError "boom") rfl rfl rfl rfl
    (.str "ok") rfl asstMsg rfl rfl

/-- C3: with `next_prompt` pending, a positive attempt budget, and an adapter
whose callback raises `ExcessTokenError` on its first invocation, `run`
propagates that error to its caller; the run object ends with status `FAILED`,
exactly the one recorded error, and `attempts = 1` — the condition is never
retried, whatever `max_attempts` was. -/
theorem run_excess_token_propagates (c : Conversation) (p : ChatMessage) (ad : Adapter)
    (ma : Nat) (s : String)
    (hp : c.next_prompt = some p) (hma : 0 < ma)
    (h1 : ad.llm_callback 1 c = .raise (.excessTokenError s)) :
    ∃ ro, c.run ma (some ad) = RunResult.raised (.excessTokenError s) ro c ∧
      ro.status = RunStatus.FAILED ∧ ro.error_list = [.excessTokenError s] ∧
      ro.attempts = 1 := by
  refine ⟨{ attempts := 1, max_attempts := ma, status := RunStatus.FAILED,
            error_list := [.excessTokenError s],
            submission_list := some (ad.from_conversation c),
            raw_response := none, response := none, convo_snapshot := none },
          ?_, rfl, rfl, rfl⟩
  simp only [Conversation.run, hp, ConversationRun.new]
  rw [Conversation.handle_submission]
  simp [hma, h1, PyError.isExcessToken]

/-- C3 witness: the property instantiated at the token-limited adapter. -/
theorem run_excess_token_propagates_witness :
    ∃ ro, testConv.run 3 (some adapterToken) =
        RunResult.raised (.excessTokenError "token limit exceeded") ro testConv ∧
      ro.status = RunStatus.FAILED ∧
      ro.error_list = [.excessTokenError "token limit exceeded"] ∧
      ro.attempts = 1 :=
  run_excess_token_propagates testConv userMsg adapterToken 3 "token limit exceeded"
    rfl (by decide) rfl

/-- C4: with `next_prompt` pending and an adapter whose callback raises a
non-fatal error on all three invocations, `run(max_attempts=3)` does not
raise: it returns the run object with status `FAILED`, `attempts = 3`, the
three exceptions recorded in order, and the conversation unchanged. -/
theorem run_exhaustion_returns_failed (c : Conversation) (p : ChatMessage) (ad : Adapter)
    (hp : c.next_prompt = some p)
    (e1 e2 e3 : PyError)
    (h1 : ad.llm_callback 1 c = .raise e1) (hf1 : e1.isExcessToken = false)
    (h2 : ad.llm_callback 2 c = .raise e2) (hf2 : e2.isExcessToken = false)
    (h3 : ad.llm_callback 3 c = .raise e3) (hf3 : e3.isExcessToken = false) :
    ∃ ro, c.run 3 (some ad) = RunResult.returned ro c ∧
      ro.status = RunStatus.FAILED ∧ ro.attempts = 3 ∧
      ro.error_list = [e1, e2, e3] := by
  refine ⟨{ attempts := 3, max_attempts := 3, status := RunStatus.FAILED,
            error_list := [e1, e2, e3],
            submission_list := some (ad.from_conversation c),
            raw_response := none, response := none, convo_snapshot := none },
          ?_, rfl, rfl, rfl⟩
  simp only [Conversation.run, hp, ConversationRun.new]
  rw [Conversation.handle_submission]
  simp only [h1, hf1]
  norm_num
  rw [Conversation.handle_submission]
  simp only [h2, hf2]
  norm_num
  rw [Conversation.handle_submission]
  simp only [h3, hf3]
  norm_num

/-- C4 witness: the property instantiated at the always-failing adapter. -/
theorem run_exhaustion_returns_failed_witness :
    ∃ ro, testConv.run 3 (some adapterDown) = RunResult.returned ro testConv ∧
      ro.status = RunStatus.FAILED ∧ ro.attempts = 3 ∧
      ro.error_list = [.otherError "boom", .otherError "boom", .otherError "boom"] :=
  run_exhaustion_returns_failed testConv userMsg adapterDown rfl
    (.otherError "boom") (.otherError "boom") (.otherError "boom")
    rfl rfl rfl rfl rfl rfl

/-- C5: calling `run` with `next_prompt` unset raises `ValueError` before any
run object exists; the conversation comes back to the caller unmodified. -/
theorem run_without_next_prompt_raises (c : Conversation) (ma : Nat) (ad : Option Adapter)
    (h : c.next_prompt = none) :
    c.run ma ad = RunResult.raised_no_run
      (.valueError "next_prompt must be set before running the Conversation.") c := by
  unfold Conversation.run
  rw [h]

/-- C5 witness: the property instantiated at a promptless conversation. -/
theorem run_without_next_prompt_raises_witness :
    convNoPrompt.run 3 none = RunResult.raised_no_run
      (.valueError "next_prompt must be set before running the Conversation.")
      convNoPrompt :=
  run_without_next_prompt_raises convNoPrompt 3 none rfl

/-- C6 counterexample: the claim lists the valid roles as user, assistant and
response, but constructing a `ChatMessage` with the role "response" — a member
of that claimed-valid set — fails validation: `VALID_ROLES` in the code is
user, assistant and system. -/
theorem role_response_rejected :
    "response" ∈ ["user", "assistant", "response"] ∧
    ChatMessage.new "id0" "response" "hello" = .error (.valueError "Invalid role") := by
  constructor
  · decide
  · rfl

/-- C6 amended: for every role value outside the set user, assistant, system,
`ChatMessage` construction and role assignment fail validation (the raise
happens before any assignment, so the previous role is unchanged); for the
three valid values both succeed and the assigned role is retrievable
unchanged. -/
theorem role_validation_gate (fresh_id content role : String) (m : ChatMessage) :
    (role ∉ VALID_ROLES →
      ChatMessage.new fresh_id role content = .error (.valueError "Invalid role") ∧
      m.set_role role = .error (.valueError "Invalid role")) ∧
    (role ∈ VALID_ROLES →
      ChatMessage.new fresh_id role content =
        .ok { id := fresh_id, role := role, content := content } ∧
      m.set_role role = .ok { m with role := role }) := by
  constructor <;> intro h <;>
    simp [ChatMessage.new, ChatMessage.set_role, h]

/-- C6 witness: the amended claim instantiated at the invalid role "wizard"
and the valid role "user". -/
theorem role_validation_gate_witness :
    ChatMessage.new "id0" "wizard" "hi" = .error (.valueError "Invalid role") ∧
    ChatMessage.new "id0" "user" "hi" =
      .ok { id := "id0", role := "user", content := "hi" } :=
  ⟨((role_validation_gate "id0" "hi" "wizard"
      { id := "id0", role := "user", content := "hi" }).1 (by decide)).1,
   ((role_validation_gate "id0" "hi" "user"
      { id := "id0", role := "user", content := "hi" }).2 (by decide)).1⟩

/-- C7: a `SystemChatMessage` always reports role "system": construction pins
the role, assigning any other role (directly or through `update`) fails
validation leaving the message unchanged, and assigning "system" succeeds with
the role still "system". -/
theorem system_role_pinned (fresh_id content new_role content2 : String) (m : ChatMessage) :
    (SystemChatMessage.new fresh_id content).role = "system" ∧
    (new_role ≠ "system" →
      SystemChatMessage.set_role m new_role =
        .error (.valueError "Role of SystemChatMessage must be system") ∧
      SystemChatMessage.update m new_role content2 =
        .error (.valueError "Role of SystemChatMessage must be system")) ∧
    SystemChatMessage.set_role m "system" = .ok { m with role := "system" } ∧
    SystemChatMessage.update m "system" content2 =
      .ok { m with role := "system", content := content2 } := by
  refine ⟨rfl, ?_, ?_, ?_⟩
  · intro h
    constructor <;> simp [SystemChatMessage.set_role, SystemChatMessage.update, h]
  · simp [SystemChatMessage.set_role, ChatMessage.set_role, VALID_ROLES]
  · simp [SystemChatMessage.set_role, SystemChatMessage.update,
      ChatMessage.set_role, VALID_ROLES]

/-- C7 witness: the pinned role instantiated at a concrete message and the
foreign role "user". -/
theorem system_role_pinned_witness :
    (SystemChatMessage.new "m0" "sys").role = "system" ∧
    SystemChatMessage.set_role sysMsg "user" =
      .error (.valueError "Role of SystemChatMessage must be system") ∧
    SystemChatMessage.set_role sysMsg "system" = .ok { sysMsg with role := "system" } :=
  ⟨(system_role_pinned "m0" "sys" "user" "c2" sysMsg).1,
   ((system_role_pinned "m0" "sys" "user" "c2" sysMsg).2.1 (by decide)).1,
   (system_role_pinned "m0" "sys" "user" "c2" sysMsg).2.2.1⟩

/-- C8: `ChatExchange` construction fails with `ValueError` when the prompt
role is not "user" or the response role is not "assistant", succeeds otherwise
exposing both referenced messages unchanged, and the same validation guards
every reassignment of `prompt` or `response`. -/
theorem exchange_role_validation (p r : ChatMessage) (e : ChatExchange) :
    (p.role ≠ "user" →
      ChatExchange.new p r = .error (.valueError "Prompt must be a user message.")) ∧
    (p.role = "user" → r.role ≠ "assistant" →
      ChatExchange.new p r = .error (.valueError "Response must be an assistant message.")) ∧
    (p.role = "user" → r.role = "assistant" →
      ChatExchange.new p r = .ok { prompt := p, response := r }) ∧
    (p.role = "user" → e.set_prompt p = .ok { e with prompt := p }) ∧
    (p.role ≠ "user" →
      e.set_prompt p = .error (.valueError "Prompt must be a user message.")) ∧
    (r.role = "assistant" → e.set_response r = .ok { e with response := r }) ∧
    (r.role ≠ "assistant" →
      e.set_response r = .error (.valueError "Response must be an assistant message.")) := by
  refine ⟨?_, ?_, ?_, ?_, ?_, ?_, ?_⟩ <;> intros <;>
    simp_all [ChatExchange.new, ChatExchange.set_prompt, ChatExchange.set_response]

/-- C8 witness: a valid pair constructs and exposes both messages; a swapped
pair is rejected. -/
theorem exchange_role_validation_witness :
    ChatExchange.new userMsg asstMsg = .ok { prompt := userMsg, response := asstMsg } ∧
    ChatExchange.new asstMsg userMsg = .error (.valueError "Prompt must be a user message.") :=
  ⟨(exchange_role_validation userMsg asstMsg
      { prompt := userMsg, response := asstMsg }).2.2.1 rfl rfl,
   (exchange_role_validation asstMsg userMsg
      { prompt := userMsg, response := asstMsg }).1 (by decide)⟩

/-- C9: when `run` returns its run object with status `COMPLETED`, the
conversation handed back has its `next_prompt` unchanged — the success path
appends to the exchange list and never writes `next_prompt`. -/
theorem completed_run_preserves_next_prompt (c : Conversation) (ma : Nat)
    (ad : Option Adapter) (ro : ConversationRun) (c2 : Conversation)
    (hret : c.run ma ad = RunResult.returned ro c2)
    (_hst : ro.status = RunStatus.COMPLETED) :
    c2.next_prompt = c.next_prompt := by
  unfold Conversation.run at hret
  rcases hnp : c.next_prompt with _ | p
  · rw [hnp] at hret
    exact absurd hret (by simp)
  · rw [hnp] at hret
    rcases ad with _ | a
    · exact absurd hret (by simp)
    · simp only at hret
      rcases hres : (c.handle_submission a
          { ConversationRun.new ma with
            submission_list := some (a.from_conversation c),
            status := RunStatus.PENDING }).raised with _ | e
      · rw [hres] at hret
        have hconv := handle_submission_preserves_next_prompt a c
          (({ ConversationRun.new ma with
              submission_list := some (a.from_conversation c),
              status := RunStatus.PENDING } : ConversationRun).max_attempts)
          { ConversationRun.new ma with
            submission_list := some (a.from_conversation c),
            status := RunStatus.PENDING } (by omega)
        rw [RunResult.returned.injEq] at hret
        rw [← hret.2, hconv, hnp]
      · rw [hres] at hret
        exact absurd hret (by simp)

/-- C9 witness: a completed run against the always-succeeding adapter leaves
`next_prompt` as it was. -/
theorem completed_run_preserves_next_prompt_witness :
    ({ system_message := sysMsg,
       chat_exchanges := [{ prompt := userMsg, response := asstMsg }],
       next_prompt := some userMsg } : Conversation).next_prompt = testConv.next_prompt :=
  completed_run_preserves_next_prompt testConv 3 (some adapterOk)
    { attempts := 1, max_attempts := 3, status := RunStatus.COMPLETED,
      error_list := [], submission_list := some (adapterOk.from_conversation testConv),
      raw_response := some (.str "ok"), response := some asstMsg,
      convo_snapshot := some testConv }
    { system_message := sysMsg,
      chat_exchanges := [{ prompt := userMsg, response := asstMsg }],
      next_prompt := some userMsg }
    (by
      simp only [Conversation.run, ConversationRun.new, testConv]
      rw [Conversation.handle_submission]
      simp [adapterOk, ConversationRun.adapt_response, ChatExchange.new_opt,
        userMsg, asstMsg])
    rfl

/-- C10: with `next_prompt` pending, calling `run` with the default
`adapter=None` raises `AttributeError` at the payload-adaptation step
(`_run_object.adapter.from_conversation`): the run object is still in its
initial state — zero attempts, status `UNSUBMITTED`, no recorded error, so no
callback was ever invoked — and the conversation is unchanged. -/
theorem run_without_adapter_raises (c : Conversation) (p : ChatMessage) (ma : Nat)
    (hp : c.next_prompt = some p) :
    c.run ma none = RunResult.raised
        (.attributeError "NoneType object has no attribute from_conversation")
        (ConversationRun.new ma) c ∧
      (ConversationRun.new ma).attempts = 0 ∧
      (ConversationRun.new ma).status = RunStatus.UNSUBMITTED ∧
      (ConversationRun.new ma).error_list = [] := by
  refine ⟨?_, rfl, rfl, rfl⟩
  simp [Conversation.run, hp]

/-- C10 witness: the property instantiated at the pending-prompt fixture. -/
theorem run_without_adapter_raises_witness :
    testConv.run 3 none = RunResult.raised
        (.attributeError "NoneType object has no attribute from_conversation")
        (ConversationRun.new 3) testConv ∧
      (ConversationRun.new 3).attempts = 0 ∧
      (ConversationRun.new 3).status = RunStatus.UNSUBMITTED ∧
      (ConversationRun.new 3).error_list = [] :=
  run_without_adapter_raises testConv userMsg 3 rfl

end ChatAssistants
